import Mathlib

/-!
Shallow embedding of the figipy library (range normalization, filter
building, request/pagination/error handling) and verification of its
specification claims.
-/

set_option autoImplicit false

namespace Figipy

/-! ## Calendar dates

`datetime.date` is a proleptic-Gregorian calendar date.  We model it as a
year/month/day triple, with day arithmetic going through the count of days
since the civil epoch 1970-01-01 (the standard era-based conversion of
Gregorian dates to day numbers). -/

structure Date where
  year : Int
  month : Int
  day : Int
deriving DecidableEq, Repr

/-- Number of days from 1970-01-01 to the civil date `y-m-d`. -/
def daysFromCivil (y m d : Int) : Int :=
  let y' := y - (if m ≤ 2 then 1 else 0)
  let era := (if 0 ≤ y' then y' else y' - 399) / 400
  let yoe := y' - era * 400
  let doy := (153 * (m + (if 2 < m then -3 else 9)) + 2) / 5 + d - 1
  let doe := yoe * 365 + yoe / 4 - yoe / 100 + doy
  era * 146097 + doe - 719468

/-- The civil date that lies `z` days after 1970-01-01. -/
def civilFromDays (z0 : Int) : Date :=
  let z := z0 + 719468
  let era := (if 0 ≤ z then z else z - 146096) / 146097
  let doe := z - era * 146097
  let yoe := (doe - doe / 1460 + doe / 36524 - doe / 146096) / 365
  let y := yoe + era * 400
  let doy := doe - (365 * yoe + yoe / 4 - yoe / 100)
  let mp := (5 * doy + 2) / 153
  let d := doy - (153 * mp + 2) / 5 + 1
  let m := mp + (if mp < 10 then 3 else -9)
  ⟨y + (if m ≤ 2 then 1 else 0), m, d⟩

def Date.toOrdinal (dt : Date) : Int :=
  daysFromCivil dt.year dt.month dt.day

/-- `date + timedelta(days := n)`. -/
def Date.addDays (dt : Date) (n : Int) : Date :=
  civilFromDays (dt.toOrdinal + n)

/-- Zero-pad a day or month number to two digits, as `%m` / `%d` do. -/
def pad2 (n : Int) : String :=
  if n < 10 then "0" ++ toString n else toString n

/-- Zero-pad a year number to four digits, as `%Y` does. -/
def pad4 (n : Int) : String :=
  if n < 10 then "000" ++ toString n
  else if n < 100 then "00" ++ toString n
  else if n < 1000 then "0" ++ toString n
  else toString n

/-- `date.strftime("%Y-%m-%d")`. -/
def formatDate (dt : Date) : String :=
  pad4 dt.year ++ "-" ++ pad2 dt.month ++ "-" ++ pad2 dt.day

/-! ## Range normalization (`figipy/range.py`)

Range bounds are optional values; Python's truth test treats `None` and the
number `0` as falsy, while every `datetime.date` is truthy.  The source
relies on truthiness (`or`, `any`, `all`), so we model that explicitly. -/

/-- Python truthiness of an optional value, given the truthiness of the
element type. -/
def pyTruthy {α : Type} (elemTruthy : α → Bool) : Option α → Bool
  | none => false
  | some v => elemTruthy v

/-- Truthiness of a Python number: `0` is falsy. -/
def intTruthy (v : Int) : Bool := v != 0

/-- Truthiness of a `datetime.date`: always truthy. -/
def dateTruthy (_ : Date) : Bool := true

/-- `timedelta(weeks = 52)`, measured in days. -/
def year_offset : Int := 52 * 7

/-- `convert_date_range_to_string` from `figipy/range.py`.  `Except.error`
models the `TypeError` raised when both bounds are `None` (computing
`None - year_offset`); the outer `Option` result mirrors the `None`
returned for a `None` argument. -/
def convert_date_range_to_string (r : Option (Option Date × Option Date)) :
    Except Unit (Option (List String)) :=
  match r with
  | none => .ok none
  | some (f, s) =>
    match f, s with
    | none, none => .error ()
    | some a, none =>
      .ok (some [formatDate a, formatDate (a.addDays year_offset)])
    | none, some b =>
      .ok (some [formatDate (b.addDays (-year_offset)), formatDate b])
    | some a, some b => .ok (some [formatDate a, formatDate b])

/-- `convert_number_range_to_string` from `figipy/range.py`.  The source
computes `first or None, second or None`, which nulls out falsy bounds
(including the number `0`). -/
def convert_number_range_to_string (r : Option (Option Int × Option Int)) :
    Option (List (Option Int)) :=
  match r with
  | none => none
  | some (f, s) =>
    some [if pyTruthy intTruthy f then f else none,
          if pyTruthy intTruthy s then s else none]

/-- `assert_data_range_is_valid` from `figipy/range.py`, parametrised over
the element truthiness and ordering.  Returns `true` when every `assert`
passes: `any(data_range)` must hold, and when `all(data_range)` holds the
second component must be `>=` the first. -/
def assert_data_range_is_valid {α : Type} (elemTruthy : α → Bool)
    (leB : α → α → Bool) (r : Option α × Option α) : Bool :=
  (pyTruthy elemTruthy r.1 || pyTruthy elemTruthy r.2) &&
  (if pyTruthy elemTruthy r.1 && pyTruthy elemTruthy r.2 then
     match r.1, r.2 with
     | some a, some b => leB a b
     | _, _ => true
   else true)

/-- The range validity check instantiated at numeric ranges. -/
def assertIntRange (r : Option Int × Option Int) : Bool :=
  assert_data_range_is_valid intTruthy (fun a b => decide (a ≤ b)) r

/-- The range validity check instantiated at date ranges. -/
def assertDateRange (r : Option Date × Option Date) : Bool :=
  assert_data_range_is_valid dateTruthy
    (fun a b => decide (a.toOrdinal ≤ b.toOrdinal)) r

example :
    convert_date_range_to_string (some (some ⟨2020, 11, 12⟩, none)) =
      .ok (some ["2020-11-12", "2021-11-11"]) := by rfl

example :
    convert_date_range_to_string (some (none, some ⟨2020, 11, 12⟩)) =
      .ok (some ["2019-11-14", "2020-11-12"]) := by rfl

example :
    convert_date_range_to_string
        (some (some ⟨2020, 11, 12⟩, some ⟨2020, 11, 12⟩)) =
      .ok (some ["2020-11-12", "2020-11-12"]) := by rfl

example : assertIntRange (none, none) = false := by decide
example : assertIntRange (some 3, some 5) = true := by decide
example : assertIntRange (none, some 5) = true := by decide
example : assertIntRange (some 2, none) = true := by decide
example : assertIntRange (some 0, none) = false := by decide
example : assertIntRange (some 5, some 0) = true := by decide
example : assertDateRange (some ⟨2020, 11, 12⟩, none) = true := by decide
example :
    assertDateRange (some ⟨2020, 12, 12⟩, some ⟨2020, 11, 12⟩) = false := by
  decide
example : convert_number_range_to_string (some (some 100, none)) =
    some [some 100, none] := by decide
example : convert_number_range_to_string (some (some 0, some 5)) =
    some [none, some 5] := by decide

/-! ## Search properties and filter building (`figipy/core.py`) -/

/-- A JSON value occurring in the wire-format filter mapping. -/
inductive JsonVal : Type
  | str (s : String)
  | bool (b : Bool)
  | numList (l : List (Option Int))
  | strList (l : List String)
deriving DecidableEq, Repr

/-- The `OpenFIGIProperties` dataclass: every field optional, `None` by
default. -/
structure OpenFIGIProperties where
  exchange_code : Option String := none
  mic_code : Option String := none
  currency : Option String := none
  market_sector_description : Option String := none
  security_type : Option String := none
  security_type_2 : Option String := none
  include_unlisted_equities : Option Bool := none
  option_type : Option String := none
  strike : Option (Option Int × Option Int) := none
  contract_size : Option (Option Int × Option Int) := none
  coupon : Option (Option Int × Option Int) := none
  expiration : Option (Option Date × Option Date) := none
  maturity : Option (Option Date × Option Date) := none
  state_code : Option String := none
deriving DecidableEq, Repr

/-- `OpenFIGIProperties.__post_init__`: if `expiration` is set (a tuple is
always truthy), `security_type_2` must be `"Option"` or `"Warrant"` and the
range must be valid; if `maturity` is set, `security_type_2` must be
`"Pool"` and the range must be valid.  `true` means every assert passed. -/
def post_init (p : OpenFIGIProperties) : Bool :=
  (match p.expiration with
   | none => true
   | some r =>
       (p.security_type_2 == some "Option" || p.security_type_2 == some "Warrant")
       && assertDateRange r) &&
  (match p.maturity with
   | none => true
   | some r => (p.security_type_2 == some "Pool") && assertDateRange r)

/-- One key/value entry of the filter dict, or nothing when the value is
`None` (the comprehension's `if value is not None` guard). -/
def optEntry (k : String) (v : Option JsonVal) : List (String × JsonVal) :=
  match v with
  | none => []
  | some j => [(k, j)]

/-- The entries of `as_filter`'s dict comprehension, in source order, given
the already-converted date ranges. -/
def filter_entries (p : OpenFIGIProperties) (expConv matConv : Option (List String)) :
    List (String × JsonVal) :=
  optEntry "exchCode" (p.exchange_code.map .str) ++
  optEntry "micCode" (p.mic_code.map .str) ++
  optEntry "currency" (p.currency.map .str) ++
  optEntry "marketSecDes" (p.market_sector_description.map .str) ++
  optEntry "securityType" (p.security_type.map .str) ++
  optEntry "securityType2" (p.security_type_2.map .str) ++
  optEntry "includeUnlistedEquities" (p.include_unlisted_equities.map .bool) ++
  optEntry "optionType" (p.option_type.map .str) ++
  optEntry "strike" ((convert_number_range_to_string p.strike).map .numList) ++
  optEntry "contractSize" ((convert_number_range_to_string p.contract_size).map .numList) ++
  optEntry "coupon" ((convert_number_range_to_string p.coupon).map .numList) ++
  optEntry "expiration" (expConv.map .strList) ++
  optEntry "maturity" (matConv.map .strList) ++
  optEntry "stateCode" (p.state_code.map .str)

/-- `OpenFIGIProperties.as_filter`: builds the wire mapping, dropping `None`
values.  `Except.error` models the `TypeError` that a `(None, None)` date
range raises inside the dict literal. -/
def as_filter (p : OpenFIGIProperties) :
    Except Unit (List (String × JsonVal)) :=
  match convert_date_range_to_string p.expiration,
        convert_date_range_to_string p.maturity with
  | .ok e, .ok m => .ok (filter_entries p e m)
  | _, _ => .error ()

/-- Dataclass construction: `__init__` runs `__post_init__`, whose failed
assert aborts construction, so a violating filter never reaches
`as_filter`. -/
def build_filter (p : OpenFIGIProperties) :
    Except Unit (List (String × JsonVal)) :=
  if post_init p then as_filter p else .error ()

example : as_filter { exchange_code := some "NYSE" } =
    .ok [("exchCode", .str "NYSE")] := by rfl
example : as_filter {} = .ok [] := by rfl
example : as_filter { strike := some (some 2, some 3) } =
    .ok [("strike", .numList [some 2, some 3])] := by rfl
example : post_init { strike := some (some 5, some 3) } = true := by decide
example :
    post_init
      { security_type_2 := some "Option"
        expiration := some (some ⟨2020, 12, 11⟩, none) } = true := by decide
example : post_init { expiration := some (some ⟨2020, 12, 11⟩, none) } =
    false := by decide
example :
    post_init
      { security_type_2 := some "Pool"
        maturity := some (none, none) } = false := by decide

/-! ## Pagination (`OpenFIGIApi._perform_pagination_request`)

The mock server is a list of page responses handed out in request order;
a request past the end of the list is answered with the empty mapping (which
is also what `_perform_request` returns on a swallowed error).  The model
returns the yielded items together with the body of every request issued. -/

/-- One decoded page: the optional `data` list and the optional `next`
cursor of the response mapping. -/
structure PageResponse (α : Type) where
  data : Option (List α)
  next : Option String
deriving DecidableEq, Repr

/-- A JSON request body, as an ordered key/value mapping. -/
abbrev Body := List (String × String)

/-- `dict(data, start = cursor)`: a copy of `data` with `start` bound to
`cursor` (replacing an existing binding, else appended). -/
def dictWithStart (body : Body) (c : String) : Body :=
  if body.any (fun kv => kv.1 == "start") then
    body.map (fun kv => if kv.1 == "start" then ("start", c) else kv)
  else body ++ [("start", c)]

/-- The `while`-loop of `_perform_pagination_request`, given the response
`resp` to the request just issued and the remaining pages `server` the mock
server will serve.  Returns the yielded items and the bodies of the
follow-up requests issued by the loop. -/
def pagination_loop {α : Type} (body : Body) :
    PageResponse α → List (PageResponse α) → List α × List Body
  | ⟨none, _⟩, _ => ([], [])
  | ⟨some items, nx⟩, server =>
    if items.isEmpty then ([], [])
    else
      match nx, server with
      | none, _ => (items, [])
      | some cur, [] => (items, [dictWithStart body cur])
      | some cur, r :: rest =>
        let out := pagination_loop body r rest
        (items ++ out.1, dictWithStart body cur :: out.2)

/-- `_perform_pagination_request`: issue the initial request with `body`,
then run the pagination loop.  Returns the yielded items and the bodies of
every request issued (the initial one included). -/
def perform_pagination_request {α : Type} (body : Body)
    (server : List (PageResponse α)) : List α × List Body :=
  match server with
  | [] =>
    let out := pagination_loop body (PageResponse.mk none none) ([] : List (PageResponse α))
    (out.1, body :: out.2)
  | r :: rest =>
    let out := pagination_loop body r rest
    (out.1, body :: out.2)

example :
    perform_pagination_request [("query", "q")]
      [PageResponse.mk (some [1, 2]) (some "c1"),
       PageResponse.mk (some [3]) none] =
      ([1, 2, 3], [[("query", "q")], [("query", "q"), ("start", "c1")]]) := by
  decide

/-! ## Single requests and error handling (`OpenFIGIApi._perform_request`) -/

/-- The exceptions `_perform_request` and its callers can raise:
the three figipy error classes, `raise_for_status`'s `HTTPError`, and the
`KeyError` raised by a missing dictionary key. -/
inductive FigiError : Type
  | rateLimit
  | payloadTooLarge
  | authentication
  | httpError (status : Nat)
  | keyError (k : String)
deriving DecidableEq, Repr

/-- `_perform_request`, abstracted over the decoded response body type:
given the response status and body (after any transport-level retries),
either raise one of the figipy errors, raise `HTTPError` via
`raise_for_status` (4xx/5xx with raise-on-error enabled), return the JSON
body (`response.ok`, i.e. status < 400), or degrade to the empty mapping
`emptyBody`. -/
def perform_request {α : Type} (raiseOnError : Bool) (status : Nat)
    (body emptyBody : α) : Except FigiError α :=
  if status = 429 ∧ raiseOnError = true then .error .rateLimit
  else if status = 413 ∧ raiseOnError = true then .error .payloadTooLarge
  else if status = 403 ∧ raiseOnError = true then .error .authentication
  else if raiseOnError = true ∧ 400 ≤ status ∧ status < 600 then
    .error (.httpError status)
  else if status < 400 then .ok body
  else .ok emptyBody

/-- `OpenFIGIApi.mapping_values`: performs a GET and indexes the decoded
mapping with `["values"]`.  The body models the optional `values` key of
the response; the degraded empty mapping has no such key, so indexing it
raises `KeyError`. -/
def mapping_values (raiseOnError : Bool) (status : Nat)
    (values : Option (List String)) : Except FigiError (List String) :=
  match perform_request raiseOnError status values none with
  | .error e => .error e
  | .ok (some vs) => .ok vs
  | .ok none => .error (.keyError "values")

example : perform_request true 429 ([] : List Nat) [] =
    .error .rateLimit := by rfl
example : perform_request true 413 ([] : List Nat) [] =
    .error .payloadTooLarge := by rfl
example : perform_request true 403 ([] : List Nat) [] =
    .error .authentication := by rfl
example : perform_request true 500 ([] : List Nat) [] =
    .error (.httpError 500) := by rfl
example : perform_request false 429 [1] ([] : List Nat) = .ok [] := by rfl
example : perform_request false 200 [1] ([] : List Nat) = .ok [1] := by rfl
example : mapping_values false 429 (some ["USD"]) =
    .error (.keyError "values") := by rfl

/-! ## Client construction (`OpenFIGIApi.__init__`) -/

/-- The environment-derived class-level defaults (`API_KEY`, `API_URL`,
`API_RAISE_ON_ERROR`, `API_RETRY_COUNT`), resolved once at class-definition
time. -/
structure ClientDefaults where
  raiseOnError : Bool
  apiKey : Option String
  apiUrl : String
  retryCount : Nat
deriving DecidableEq, Repr

/-- The constructed client state. -/
structure OpenFIGIApi where
  raise_on_error : Bool
  api_retry_count : Nat
  api_key : Option String
  api_url : String
deriving DecidableEq, Repr

/-- Python `x or d` for an optional boolean argument: `None` and `False`
are falsy and fall through to the default. -/
def pyOrBool (x : Option Bool) (d : Bool) : Bool :=
  match x with
  | some true => true
  | _ => d

/-- Python `x or d` for an optional integer argument: `None` and `0` are
falsy and fall through to the default. -/
def pyOrNat (x : Option Nat) (d : Nat) : Nat :=
  match x with
  | some n => if n == 0 then d else n
  | none => d

/-- Python `x or d` for an optional string argument with a mandatory
default: `None` and `""` are falsy. -/
def pyOrStr (x : Option String) (d : String) : String :=
  match x with
  | some s => if s == "" then d else s
  | none => d

/-- Python `x or d` for an optional string argument whose default is itself
optional (the API key may be unset in the environment). -/
def pyOrOptStr (x : Option String) (d : Option String) : Option String :=
  match x with
  | some s => if s == "" then d else some s
  | none => d

/-- `OpenFIGIApi.__init__`: each field is `argument or DEFAULT`. -/
def initApi (dflt : ClientDefaults) (roe : Option Bool)
    (key url : Option String) (rc : Option Nat) : OpenFIGIApi :=
  { raise_on_error := pyOrBool roe dflt.raiseOnError
    api_retry_count := pyOrNat rc dflt.retryCount
    api_key := pyOrOptStr key dflt.apiKey
    api_url := pyOrStr url dflt.apiUrl }

example :
    (initApi ⟨true, none, "https://api.openfigi.com", 2⟩
        (some false) none none (some 0)).raise_on_error = true := by decide
example :
    (initApi ⟨true, none, "https://api.openfigi.com", 2⟩
        (some false) none none (some 0)).api_retry_count = 2 := by decide

/-! ## Result objects (`OpenFIGIObject.from_figi_data`) -/

/-- The `OpenFIGIObject` dataclass; every field the decoder does not set
keeps its `None` default. -/
structure OpenFIGIObject where
  figi : Option String
  security_type : Option String := none
  security_type_2 : Option String := none
  market_sector : Option String := none
  exchange_code : Option String := none
  ticker : Option String := none
  name : Option String := none
  id : Option String := none
  share_class_figi : Option String := none
  composite_figi : Option String := none
  security_description : Option String := none
  future_or_option_id : Option String := none
  metadata : Option (List (String × String)) := none
deriving DecidableEq, Repr

/-- `OpenFIGIObject.from_figi_data`: `data.get(key)` for each mapped field
(note the `"figipy"` key read for `figi`); `ticker` and `metadata` are
never set. -/
def from_figi_data (data : List (String × String)) : OpenFIGIObject :=
  { figi := data.lookup "figipy"
    security_type := data.lookup "securityType"
    security_type_2 := data.lookup "securityType2"
    market_sector := data.lookup "marketSecDes"
    exchange_code := data.lookup "exchCode"
    name := data.lookup "name"
    id := data.lookup "id"
    share_class_figi := data.lookup "shareClassFIGI"
    composite_figi := data.lookup "compositeFIGI"
    security_description := data.lookup "securityDescription"
    future_or_option_id := data.lookup "uniqueIDFutOpt" }

example :
    (from_figi_data [("figi", "BBG000BLNNH6"), ("FIGI", "BBG000BLNNH6")]).figi
      = none := by decide
example :
    (from_figi_data [("figipy", "X"), ("name", "Apple")]).name =
      some "Apple" := by decide

/-! ## Claim theorems -/

/-- C2: for every date range with exactly one bound present, normalization
synthesizes the missing bound at exactly 364 days from the present one
(missing lower = upper - 364 days, missing upper = lower + 364 days), both
bounds are rendered as `YYYY-MM-DD`, and a range with both dates present is
rendered unchanged. -/
theorem date_range_normalization_spec (a b : Date) :
    convert_date_range_to_string (some (some a, none)) =
        .ok (some [formatDate a, formatDate (a.addDays 364)]) ∧
    convert_date_range_to_string (some (none, some b)) =
        .ok (some [formatDate (b.addDays (-364)), formatDate b]) ∧
    convert_date_range_to_string (some (some a, some b)) =
        .ok (some [formatDate a, formatDate b]) ∧
    convert_date_range_to_string (some (some ⟨2020, 11, 12⟩, none)) =
        .ok (some ["2020-11-12", "2021-11-11"]) ∧
    convert_date_range_to_string (some (none, some ⟨2020, 11, 12⟩)) =
        .ok (some ["2019-11-14", "2020-11-12"]) :=
  ⟨rfl, rfl, rfl, rfl, rfl⟩

/-- C3 counterexample: the pair `(0, None)` has a present bound, so the
claim says the check succeeds, but the code's `any(data_range)` treats the
number `0` as absent and the check fails; dually `(5, 0)` has both bounds
present with upper < lower, so the claim says the check fails, but
`all(data_range)` skips the order assert and the check succeeds. -/
theorem range_check_zero_cex :
    (some 0 : Option Int) ≠ none ∧
    assertIntRange (some 0, none) = false ∧
    assertIntRange (some 5, some 0) = true := by
  refine ⟨by decide, by decide, by decide⟩

/-- C3 (amended): the range check works on Python truthiness, not
presence.  For numeric ranges it fails exactly when both bounds are falsy
(absent or zero), or when both are truthy and upper < lower; for date
ranges (dates are always truthy) it fails exactly when both bounds are
absent, or both present with upper < lower. -/
theorem range_check_truthiness (lo hi : Option Int) (dlo dhi : Option Date) :
    (assertIntRange (lo, hi) = true ↔
      ((pyTruthy intTruthy lo = true ∨ pyTruthy intTruthy hi = true) ∧
        ∀ a b, lo = some a → hi = some b → a ≠ 0 → b ≠ 0 → a ≤ b)) ∧
    (assertDateRange (dlo, dhi) = true ↔
      ((dlo ≠ none ∨ dhi ≠ none) ∧
        ∀ a b, dlo = some a → dhi = some b → a.toOrdinal ≤ b.toOrdinal)) := by
  constructor
  · cases lo with
    | none =>
      cases hi <;>
        simp [assertIntRange, assert_data_range_is_valid, pyTruthy, intTruthy]
    | some a =>
      cases hi with
      | none =>
        simp [assertIntRange, assert_data_range_is_valid, pyTruthy, intTruthy]
      | some b =>
        by_cases ha : a = 0 <;> by_cases hb : b = 0 <;>
          simp [assertIntRange, assert_data_range_is_valid, pyTruthy,
            intTruthy, ha, hb]
  · cases dlo <;> cases dhi <;>
      simp [assertDateRange, assert_data_range_is_valid, pyTruthy, dateTruthy]

/-- C3 witness: instances of the amended claim evaluated at concrete
ranges. -/
theorem range_check_truthiness_witness :
    (assertIntRange (some 3, some 5) = true ↔
      ((pyTruthy intTruthy (some 3) = true ∨
          pyTruthy intTruthy (some 5) = true) ∧
        ∀ a b, (some 3 : Option Int) = some a →
          (some 5 : Option Int) = some b → a ≠ 0 → b ≠ 0 → a ≤ b)) :=
  (range_check_truthiness (some 3) (some 5) none none).1

/-- C4 counterexample: a present numeric bound equal to `0` is rendered as
null, not as `0`: `convert_number_range_to_string` maps `(0, 5)` to
`[null, 5]`, because the source computes `first or None`. -/
theorem number_range_zero_cex :
    convert_number_range_to_string (some (some 0, some 5)) =
        some [none, some 5] ∧
    convert_number_range_to_string (some (some 0, some 5)) ≠
        some [some 0, some 5] := by
  refine ⟨by decide, by decide⟩

/-- C4 (amended): numeric-range rendering returns the two bounds as a
two-element list with no default bound synthesized; an absent bound is
rendered as null, a nonzero bound unchanged, and a bound equal to `0` is
rendered as null (it is falsy under `first or None`).  In particular
`(100, None)` renders as `[100, null]`. -/
theorem number_range_passthrough (lo hi : Option Int) :
    convert_number_range_to_string (some (lo, hi)) =
      some [if lo = some 0 then none else lo,
            if hi = some 0 then none else hi] ∧
    convert_number_range_to_string (some (some 100, none)) =
      some [some 100, none] := by
  constructor
  · cases lo with
    | none =>
      cases hi with
      | none => rfl
      | some b =>
        by_cases hb : b = 0 <;>
          simp [convert_number_range_to_string, pyTruthy, intTruthy, hb]
    | some a =>
      cases hi with
      | none =>
        by_cases ha : a = 0 <;>
          simp [convert_number_range_to_string, pyTruthy, intTruthy, ha]
      | some b =>
        by_cases ha : a = 0 <;> by_cases hb : b = 0 <;>
          simp [convert_number_range_to_string, pyTruthy, intTruthy, ha, hb]
  · decide

/-- C9 counterexample: with an environment default of raise-on-error = true
and retry count 2, a client constructed with explicit `raise_on_error =
False` and `api_retry_count = 0` still has the flag enabled and retry count
2: the falsy explicit arguments lose to the defaults under `or`. -/
theorem init_falsy_cex :
    (initApi ⟨true, none, "https://api.openfigi.com", 2⟩
        (some false) none none (some 0)).raise_on_error = true ∧
    (initApi ⟨true, none, "https://api.openfigi.com", 2⟩
        (some false) none none (some 0)).raise_on_error ≠ false ∧
    (initApi ⟨true, none, "https://api.openfigi.com", 2⟩
        (some false) none none (some 0)).api_retry_count = 2 ∧
    (initApi ⟨true, none, "https://api.openfigi.com", 2⟩
        (some false) none none (some 0)).api_retry_count ≠ 0 := by
  refine ⟨by decide, by decide, by decide, by decide⟩

/-- C9 (amended): an explicitly supplied constructor argument overrides the
environment-derived default only when it is truthy; falsy explicit
arguments (`None`, `False`, `0`, `""`) fall back to the default.  In
particular `raise_on_error=False` or `api_retry_count=0` cannot override a
truthy default. -/
theorem init_resolution (dflt : ClientDefaults) (roe : Option Bool)
    (key url : Option String) (rc : Option Nat) :
    ((initApi dflt roe key url rc).raise_on_error = true ↔
        (roe = some true ∨ dflt.raiseOnError = true)) ∧
    (∀ n, rc = some n → n ≠ 0 →
        (initApi dflt roe key url rc).api_retry_count = n) ∧
    (rc = none ∨ rc = some 0 →
        (initApi dflt roe key url rc).api_retry_count = dflt.retryCount) ∧
    (∀ k, key = some k → k ≠ "" →
        (initApi dflt roe key url rc).api_key = some k) ∧
    (key = none ∨ key = some "" →
        (initApi dflt roe key url rc).api_key = dflt.apiKey) ∧
    (∀ u, url = some u → u ≠ "" →
        (initApi dflt roe key url rc).api_url = u) ∧
    (url = none ∨ url = some "" →
        (initApi dflt roe key url rc).api_url = dflt.apiUrl) := by
  refine ⟨?_, ?_, ?_, ?_, ?_, ?_, ?_⟩
  · cases roe with
    | none => simp [initApi, pyOrBool]
    | some b => cases b <;> simp [initApi, pyOrBool]
  · intro n hn hnz
    subst hn
    simp [initApi, pyOrNat, hnz]
  · rintro (h | h) <;> subst h <;> simp [initApi, pyOrNat]
  · intro k hk hke
    subst hk
    simp [initApi, pyOrOptStr, hke]
  · rintro (h | h) <;> subst h <;> simp [initApi, pyOrOptStr]
  · intro u hu hue
    subst hu
    simp [initApi, pyOrStr, hue]
  · rintro (h | h) <;> subst h <;> simp [initApi, pyOrStr]

/-- C9 witness: the amended resolution rule evaluated at concrete
arguments: a truthy retry count overrides, a `None` key falls back. -/
theorem init_resolution_witness :
    (initApi ⟨false, some "K", "https://api.openfigi.com", 2⟩
        none none none (some 7)).api_retry_count = 7 ∧
    (initApi ⟨false, some "K", "https://api.openfigi.com", 2⟩
        none none none (some 7)).api_key = some "K" :=
  ⟨(init_resolution ⟨false, some "K", "https://api.openfigi.com", 2⟩
        none none none (some 7)).2.1 7 rfl (by decide),
   (init_resolution ⟨false, some "K", "https://api.openfigi.com", 2⟩
        none none none (some 7)).2.2.2.2.1 (Or.inl rfl)⟩

/-- C10: `from_figi_data` applies the fixed field-name table: `figi` is
read from the key `"figipy"` (so it is `None` whenever the input lacks a
`"figipy"` key, e.g. when the identifier arrives under `"figi"` or
`"FIGI"`), the other mapped fields come from their fixed wire keys, and the
`ticker` and `metadata` fields are left `None` for every input. -/
theorem from_figi_data_spec (d : List (String × String)) :
    (from_figi_data d).figi = d.lookup "figipy" ∧
    (from_figi_data d).security_type = d.lookup "securityType" ∧
    (from_figi_data d).security_type_2 = d.lookup "securityType2" ∧
    (from_figi_data d).market_sector = d.lookup "marketSecDes" ∧
    (from_figi_data d).exchange_code = d.lookup "exchCode" ∧
    (from_figi_data d).name = d.lookup "name" ∧
    (from_figi_data d).id = d.lookup "id" ∧
    (from_figi_data d).share_class_figi = d.lookup "shareClassFIGI" ∧
    (from_figi_data d).composite_figi = d.lookup "compositeFIGI" ∧
    (from_figi_data d).security_description = d.lookup "securityDescription" ∧
    (from_figi_data d).future_or_option_id = d.lookup "uniqueIDFutOpt" ∧
    (from_figi_data d).ticker = none ∧
    (from_figi_data d).metadata = none ∧
    (from_figi_data [("figi", "BBG000BLNNH6"), ("FIGI", "BBG000BLNNH6")]).figi
      = none :=
  ⟨rfl, rfl, rfl, rfl, rfl, rfl, rfl, rfl, rfl, rfl, rfl, rfl, rfl,
   by decide⟩

/-- C7: constructing a filter with `expiration` set fails unless the
security subtype is `"Option"` or `"Warrant"`, and constructing one with
`maturity` set fails unless the subtype is `"Pool"`; the checks run in
`__post_init__`, so a violating filter never produces a wire mapping. -/
theorem subtype_validation (p : OpenFIGIProperties) :
    (p.expiration ≠ none → p.security_type_2 ≠ some "Option" →
      p.security_type_2 ≠ some "Warrant" →
      post_init p = false ∧ ∀ m, build_filter p ≠ .ok m) ∧
    (p.maturity ≠ none → p.security_type_2 ≠ some "Pool" →
      post_init p = false ∧ ∀ m, build_filter p ≠ .ok m) := by
  constructor
  · intro he h1 h2
    have hpost : post_init p = false := by
      cases hexp : p.expiration with
      | none => exact absurd hexp he
      | some r => simp [post_init, hexp, h1, h2]
    refine ⟨hpost, ?_⟩
    intro m
    simp [build_filter, hpost]
  · intro hm h1
    have hpost : post_init p = false := by
      cases hmat : p.maturity with
      | none => exact absurd hmat hm
      | some r => simp [post_init, hmat, h1]
    refine ⟨hpost, ?_⟩
    intro m
    simp [build_filter, hpost]

/-- C7 witness: concrete violating filters fail at construction. -/
theorem subtype_validation_witness :
    post_init { expiration := some (some ⟨2020, 12, 11⟩, none) } = false ∧
    post_init
      { security_type_2 := some "Equity"
        maturity := some (some ⟨2020, 12, 11⟩, none) } = false :=
  ⟨((subtype_validation
      { expiration := some (some ⟨2020, 12, 11⟩, none) }).1
      (by decide) (by decide) (by decide)).1,
   ((subtype_validation
      { security_type_2 := some "Equity"
        maturity := some (some ⟨2020, 12, 11⟩, none) }).2
      (by decide) (by decide)).1⟩

/-- C5 counterexample: the numeric range properties are never run through
the range-validity check: a filter with `strike = (5, 3)` — both bounds
present with upper < lower, which the check rejects — constructs
successfully and produces a wire mapping. -/
theorem strike_unvalidated_cex :
    post_init { strike := some (some 5, some 3) } = true ∧
    assertIntRange (some 5, some 3) = false ∧
    build_filter { strike := some (some 5, some 3) } =
      .ok [("strike", .numList [some 5, some 3])] := by
  refine ⟨by decide, by decide, by rfl⟩

/-- C5 (amended): only the date-range properties `expiration` and
`maturity` go through the range-validity check at construction time; the
numeric range properties `strike`, `contract_size` and `coupon` are not
validated at all.  When `expiration` or `maturity` is supplied, a filter
that constructs successfully has a pair passing the range check; with both
unset, construction succeeds whatever the numeric ranges contain. -/
theorem range_validation_scope (p : OpenFIGIProperties)
    (r : Option Date × Option Date) :
    (p.expiration = some r → post_init p = true → assertDateRange r = true) ∧
    (p.maturity = some r → post_init p = true → assertDateRange r = true) ∧
    (p.expiration = none → p.maturity = none → post_init p = true) := by
  refine ⟨?_, ?_, ?_⟩
  · intro hexp hpost
    simp [post_init, hexp] at hpost
    exact hpost.1.2
  · intro hmat hpost
    simp [post_init, hmat] at hpost
    exact hpost.2.2
  · intro hexp hmat
    simp [post_init, hexp, hmat]

/-- C5 witness: the amended claim evaluated at concrete filters: a valid
expiration range passes the check, and a filter with an order-violating
strike range still constructs. -/
theorem range_validation_scope_witness :
    assertDateRange (some ⟨2020, 12, 11⟩, none) = true ∧
    post_init { strike := some (some 5, some 3) } = true :=
  ⟨(range_validation_scope
      { security_type_2 := some "Option"
        expiration := some (some ⟨2020, 12, 11⟩, none) }
      (some ⟨2020, 12, 11⟩, none)).1 rfl (by decide),
   (range_validation_scope { strike := some (some 5, some 3) }
      (none, none)).2.2 rfl rfl⟩

/-- C6 counterexample: with raise-on-error disabled, a 429 response (after
transport retries are exhausted) makes `_perform_request` return the empty
mapping, and `mapping_values` then evaluates `{}["values"]`, which raises a
`KeyError` instead of returning an empty result. -/
theorem mapping_values_keyerror_cex :
    mapping_values false 429 (some ["USD"]) =
        .error (.keyError "values") ∧
    ∀ vs, mapping_values false 429 (some ["USD"]) ≠ .ok vs := by
  refine ⟨rfl, ?_⟩
  intro vs h
  rw [show mapping_values false 429 (some ["USD"]) =
      .error (.keyError "values") from rfl] at h
  exact Except.noConfusion h

/-- C6 (amended): a service-side failure status (4xx/5xx) raises an
exception if and only if raise-on-error is enabled (429 `RateLimitError`,
413 `PayloadTooLargeError`, 403 `AuthenticationError`, any other 4xx/5xx a
generic `HTTPError`); with the flag disabled every non-success response
degrades to the empty mapping, so `search`'s pagination yields an empty
sequence — but `mapping_values` then raises a `KeyError` on the missing
`"values"` key rather than returning an empty result. -/
theorem error_policy {α : Type} (roe : Bool) (s : Nat) (b e0 : α)
    (mv : Option (List String)) (hs : s < 600) :
    ((∃ err, perform_request roe s b e0 = .error err) ↔
        (roe = true ∧ 400 ≤ s)) ∧
    (roe = true → s = 429 →
        perform_request roe s b e0 = .error .rateLimit) ∧
    (roe = true → s = 413 →
        perform_request roe s b e0 = .error .payloadTooLarge) ∧
    (roe = true → s = 403 →
        perform_request roe s b e0 = .error .authentication) ∧
    (roe = true → 400 ≤ s → s ≠ 429 → s ≠ 413 → s ≠ 403 →
        perform_request roe s b e0 = .error (.httpError s)) ∧
    (roe = false → 400 ≤ s → perform_request roe s b e0 = .ok e0) ∧
    (roe = false → 400 ≤ s →
        mapping_values roe s mv = .error (.keyError "values")) ∧
    (∀ (body : Body) (rest : List (PageResponse α)),
        pagination_loop body (PageResponse.mk none none) rest = ([], [])) := by
  refine ⟨?_, ?_, ?_, ?_, ?_, ?_, ?_, ?_⟩
  · constructor
    · rintro ⟨err, herr⟩
      by_cases hroe : roe = true
      · refine ⟨hroe, ?_⟩
        by_contra hlt
        push_neg at hlt
        have hok : perform_request roe s b e0 = .ok b := by
          have h1 : s ≠ 429 := by omega
          have h2 : s ≠ 413 := by omega
          have h3 : s ≠ 403 := by omega
          have h4 : ¬ 400 ≤ s := by omega
          simp [perform_request, h1, h2, h3, h4, hlt]
        rw [hok] at herr
        exact Except.noConfusion herr
      · have hroe' : roe = false := by
          cases roe
          · rfl
          · exact absurd rfl hroe
        subst hroe'
        have hok : ∃ v, perform_request false s b e0 = .ok v := by
          by_cases h4 : s < 400
          · exact ⟨b, by simp [perform_request, h4]⟩
          · exact ⟨e0, by simp [perform_request, h4]⟩
        obtain ⟨v, hv⟩ := hok
        rw [hv] at herr
        exact Except.noConfusion herr
    · rintro ⟨hroe, h400⟩
      subst hroe
      by_cases h1 : s = 429
      · exact ⟨.rateLimit, by simp [perform_request, h1]⟩
      · by_cases h2 : s = 413
        · exact ⟨.payloadTooLarge, by simp [perform_request, h1, h2]⟩
        · by_cases h3 : s = 403
          · exact ⟨.authentication, by simp [perform_request, h1, h2, h3]⟩
          · exact ⟨.httpError s,
              by simp [perform_request, h1, h2, h3, h400, hs]⟩
  · intro hroe h1
    subst hroe; subst h1
    rfl
  · intro hroe h1
    subst hroe; subst h1
    rfl
  · intro hroe h1
    subst hroe; subst h1
    rfl
  · intro hroe h400 h1 h2 h3
    subst hroe
    simp [perform_request, h1, h2, h3, h400, hs]
  · intro hroe h400
    subst hroe
    simp [perform_request, Nat.not_lt.mpr h400]
  · intro hroe h400
    subst hroe
    have hok : perform_request false s mv (none : Option (List String)) =
        .ok none := by
      simp [perform_request, Nat.not_lt.mpr h400]
    simp [mapping_values, hok]
  · intro body rest
    simp [pagination_loop]

/-- C6 witness: the amended policy evaluated at a 429 with raise-on-error
disabled: the request degrades to the empty mapping and `mapping_values`
raises the `KeyError`. -/
theorem error_policy_witness :
    perform_request false 429 [1] ([] : List Nat) = .ok [] ∧
    mapping_values false 429 (some ["USD"]) = .error (.keyError "values") :=
  ⟨(error_policy false 429 [1] ([] : List Nat) (some ["USD"])
      (by decide)).2.2.2.2.2.1 rfl (by decide),
   (error_policy false 429 [1] ([] : List Nat) (some ["USD"])
      (by decide)).2.2.2.2.2.2.1 rfl (by decide)⟩

/-- A pair membership test for the optional filter entries. -/
theorem mem_optEntry {k k0 : String} {v : JsonVal} {ov : Option JsonVal} :
    ((k, v) ∈ optEntry k0 ov) ↔ (k = k0 ∧ ov = some v) := by
  cases ov with
  | none => simp [optEntry]
  | some j => simp [optEntry, Prod.ext_iff, eq_comm]

/-- A date range passing the validity check converts without error. -/
theorem assert_date_range_converts (f s : Option Date)
    (h : assertDateRange (f, s) = true) :
    ∃ l, convert_date_range_to_string (some (f, s)) = .ok (some l) := by
  cases f with
  | some a =>
    cases s with
    | none => exact ⟨_, rfl⟩
    | some b => exact ⟨_, rfl⟩
  | none =>
    cases s with
    | some b => exact ⟨_, rfl⟩
    | none =>
      simp [assertDateRange, assert_data_range_is_valid, pyTruthy] at h

/-- A successfully constructed filter has successfully converting date
ranges. -/
theorem post_init_dates_ok (p : OpenFIGIProperties)
    (hpost : post_init p = true) :
    ∃ e m, convert_date_range_to_string p.expiration = .ok e ∧
      convert_date_range_to_string p.maturity = .ok m := by
  have hexp : ∃ e, convert_date_range_to_string p.expiration = .ok e := by
    cases hx : p.expiration with
    | none => exact ⟨none, rfl⟩
    | some r =>
      have hv : assertDateRange r = true := by
        simp [post_init, hx] at hpost
        exact hpost.1.2
      obtain ⟨f, s⟩ := r
      obtain ⟨l, hl⟩ := assert_date_range_converts f s hv
      exact ⟨some l, hl⟩
  have hmat : ∃ m, convert_date_range_to_string p.maturity = .ok m := by
    cases hx : p.maturity with
    | none => exact ⟨none, rfl⟩
    | some r =>
      have hv : assertDateRange r = true := by
        simp [post_init, hx] at hpost
        exact hpost.2.2
      obtain ⟨f, s⟩ := r
      obtain ⟨l, hl⟩ := assert_date_range_converts f s hv
      exact ⟨some l, hl⟩
  obtain ⟨e, he⟩ := hexp
  obtain ⟨m, hm⟩ := hmat
  exact ⟨e, m, he, hm⟩

/-- Which key/value pairs the wire mapping of a filter contains: exactly
one entry per set property, under its fixed wire key. -/
def filter_mem_spec (p : OpenFIGIProperties) (k : String) (v : JsonVal) :
    Prop :=
  (k = "exchCode" ∧ p.exchange_code.map JsonVal.str = some v) ∨
  (k = "micCode" ∧ p.mic_code.map JsonVal.str = some v) ∨
  (k = "currency" ∧ p.currency.map JsonVal.str = some v) ∨
  (k = "marketSecDes" ∧
    p.market_sector_description.map JsonVal.str = some v) ∨
  (k = "securityType" ∧ p.security_type.map JsonVal.str = some v) ∨
  (k = "securityType2" ∧ p.security_type_2.map JsonVal.str = some v) ∨
  (k = "includeUnlistedEquities" ∧
    p.include_unlisted_equities.map JsonVal.bool = some v) ∨
  (k = "optionType" ∧ p.option_type.map JsonVal.str = some v) ∨
  (k = "strike" ∧
    (convert_number_range_to_string p.strike).map JsonVal.numList = some v) ∨
  (k = "contractSize" ∧
    (convert_number_range_to_string p.contract_size).map JsonVal.numList
      = some v) ∨
  (k = "coupon" ∧
    (convert_number_range_to_string p.coupon).map JsonVal.numList = some v) ∨
  (k = "expiration" ∧ ∃ l,
    convert_date_range_to_string p.expiration = .ok (some l) ∧
    JsonVal.strList l = v) ∨
  (k = "maturity" ∧ ∃ l,
    convert_date_range_to_string p.maturity = .ok (some l) ∧
    JsonVal.strList l = v) ∨
  (k = "stateCode" ∧ p.state_code.map JsonVal.str = some v)

/-- C8: for every constructible filter, `as_filter` omits every `None`
property entirely and maps each set property to its fixed wire key; in
particular a filter with only `exchange_code = "NYSE"` yields exactly
`{"exchCode": "NYSE"}`, and the empty filter yields `{}`. -/
theorem as_filter_spec (p : OpenFIGIProperties)
    (hpost : post_init p = true) :
    (∃ entries, as_filter p = .ok entries ∧
        ∀ k v, ((k, v) ∈ entries ↔ filter_mem_spec p k v)) ∧
    as_filter { exchange_code := some "NYSE" } =
        .ok [("exchCode", JsonVal.str "NYSE")] ∧
    as_filter {} = .ok ([] : List (String × JsonVal)) := by
  obtain ⟨e, m, hexp, hmat⟩ := post_init_dates_ok p hpost
  refine ⟨⟨filter_entries p e m, ?_, ?_⟩, rfl, rfl⟩
  · simp [as_filter, hexp, hmat]
  · intro k v
    simp only [filter_entries, filter_mem_spec, List.mem_append, mem_optEntry,
      hexp, hmat, Except.ok.injEq, Option.map_eq_some', or_assoc]

/-- C8 witness: the characterization applied to concrete filters. -/
theorem as_filter_spec_witness :
    as_filter { exchange_code := some "NYSE" } =
        .ok [("exchCode", JsonVal.str "NYSE")] ∧
    as_filter {} = .ok ([] : List (String × JsonVal)) :=
  ⟨(as_filter_spec {} (by decide)).2.1, (as_filter_spec {} (by decide)).2.2⟩

/-- The items one fetched page contributes: its `data` list, or nothing. -/
def pageData {α : Type} (p : PageResponse α) : List α := p.data.getD []

/-- Loop invariant for the pagination loop: it yields the current page's
data followed by the data of exactly the pages its follow-up requests
fetch, in order. -/
theorem pagination_loop_yields {α : Type} (body : Body) :
    ∀ (server : List (PageResponse α)) (resp : PageResponse α),
      (pagination_loop body resp server).1 =
        pageData resp ++
          ((server.take (pagination_loop body resp server).2.length).map
            pageData).flatten := by
  intro server
  induction server with
  | nil =>
    intro resp
    obtain ⟨d, nx⟩ := resp
    cases d with
    | none => simp [pagination_loop, pageData]
    | some items =>
      cases nx with
      | none =>
        by_cases hi : items.isEmpty <;>
          simp_all [pagination_loop, pageData, List.isEmpty_iff]
      | some cur =>
        by_cases hi : items.isEmpty <;>
          simp_all [pagination_loop, pageData, List.isEmpty_iff]
  | cons r rest ih =>
    intro resp
    obtain ⟨d, nx⟩ := resp
    cases d with
    | none => simp [pagination_loop, pageData]
    | some items =>
      cases nx with
      | none =>
        by_cases hi : items.isEmpty <;>
          simp_all [pagination_loop, pageData, List.isEmpty_iff]
      | some cur =>
        by_cases hi : items.isEmpty
        · simp_all [pagination_loop, pageData, List.isEmpty_iff]
        · have hr := ih r
          simp_all [pagination_loop, pageData, List.isEmpty_iff,
            List.append_assoc]

/-- Loop invariant for the request bodies: every follow-up request the loop
issues is the original body with `start` set to the `next` cursor of the
page fetched just before it. -/
theorem pagination_loop_requests {α : Type} (body : Body) :
    ∀ (server : List (PageResponse α)) (resp : PageResponse α) (i : Nat)
      (b : Body),
      (pagination_loop body resp server).2.get? i = some b →
      ∃ p c, (resp :: server).get? i = some p ∧ p.next = some c ∧
        b = dictWithStart body c := by
  intro server
  induction server with
  | nil =>
    intro resp i b h
    obtain ⟨d, nx⟩ := resp
    cases d with
    | none => simp [pagination_loop] at h
    | some items =>
      cases nx with
      | none =>
        by_cases hi : items.isEmpty <;> simp [pagination_loop, hi] at h
      | some cur =>
        by_cases hi : items.isEmpty
        · simp [pagination_loop, hi] at h
        · cases i with
          | zero =>
            simp [pagination_loop, hi] at h
            exact ⟨⟨some items, some cur⟩, cur, rfl, rfl, h.symm⟩
          | succ j =>
            simp [pagination_loop, hi] at h
  | cons r rest ih =>
    intro resp i b h
    obtain ⟨d, nx⟩ := resp
    cases d with
    | none => simp [pagination_loop] at h
    | some items =>
      cases nx with
      | none =>
        by_cases hi : items.isEmpty <;> simp [pagination_loop, hi] at h
      | some cur =>
        by_cases hi : items.isEmpty
        · simp [pagination_loop, hi] at h
        · cases i with
          | zero =>
            simp [pagination_loop, hi] at h
            exact ⟨⟨some items, some cur⟩, cur, rfl, rfl, h.symm⟩
          | succ j =>
            simp [pagination_loop, hi] at h
            obtain ⟨p, c, hp, hc, hb⟩ := ih r j b (by simpa using h)
            exact ⟨p, c, hp, hc, hb⟩

/-- C1: the paginated request sequence yields exactly the concatenation of
the `data` lists of the fetched pages in order, one HTTP request per
fetched page; the first request carries the original body, every follow-up
request is the original body with `start` set to the previous page's `next`
cursor, and iteration stops when `data` is missing/empty or `next` is
absent.  On the pages `[{data:[1,2], next:"c1"}, {data:[3]}]` the sequence
is exactly `[1,2,3]` with exactly two requests. -/
theorem search_pagination_spec {α : Type} (body : Body)
    (pages : List (PageResponse α)) :
    (perform_pagination_request body pages).1 =
      ((pages.take (perform_pagination_request body pages).2.length).map
        pageData).flatten ∧
    (perform_pagination_request body pages).2.get? 0 = some body ∧
    (∀ i b, (perform_pagination_request body pages).2.get? (i + 1) = some b →
      ∃ p c, pages.get? i = some p ∧ p.next = some c ∧
        b = dictWithStart body c) ∧
    perform_pagination_request [("query", "q")]
        [PageResponse.mk (some [1, 2]) (some "c1"),
         PageResponse.mk (some [3]) none] =
      ([1, 2, 3], [[("query", "q")], [("query", "q"), ("start", "c1")]]) := by
  refine ⟨?_, ?_, ?_, by decide⟩
  · cases pages with
    | nil => simp [perform_pagination_request, pagination_loop, pageData]
    | cons r rest =>
      have hy := pagination_loop_yields body rest r
      simp only [perform_pagination_request, List.length_cons, List.take_succ_cons,
        List.map_cons, List.flatten]
      simpa using hy
  · cases pages with
    | nil => rfl
    | cons r rest => rfl
  · intro i b h
    cases pages with
    | nil =>
      simp [perform_pagination_request, pagination_loop] at h
    | cons r rest =>
      have h' : (pagination_loop body r rest).2.get? i = some b := h
      exact pagination_loop_requests body rest r i b h'

/-- C1 witness: the follow-up-request characterization applied to the
concrete two-page example. -/
theorem search_pagination_spec_witness :
    ∃ p c,
      ([PageResponse.mk (some [1, 2]) (some "c1"),
        PageResponse.mk (some [3]) (none : Option String)].get? 0 = some p) ∧
      p.next = some c ∧
      [("query", "q"), ("start", "c1")] = dictWithStart [("query", "q")] c :=
  (search_pagination_spec [("query", "q")]
      [PageResponse.mk (some [1, 2]) (some "c1"),
       PageResponse.mk (some [3]) none]).2.2.1 0
    [("query", "q"), ("start", "c1")] (by decide)

end Figipy
